import Mathlib

/-!
Verification development for the aws-sage command pipeline.

The Python sources are embedded shallowly:

* `src/src/aws_mcp/config.py` — `OperationCategory`, `SafetyMode`, `SafetyConfig`;
* `src/src/aws_sage/safety/classifier.py` — `OperationClassifier`;
* `src/src/aws_sage/safety/denylist.py` — denylist data and lookups;
* `src/src/aws_mcp/safety/validator.py` — `SafetyDecision`, `SafetyEnforcer.evaluate`;
* `src/src/aws_mcp/execution/pagination.py` — `PaginationHandler`;
* `src/src/aws_mcp/parser/service_models.py` — `ServiceModelRegistry.validate_operation`;
* `src/src/aws_sage/execution/engine.py` — `ExecutionResult`, `ExecutionEngine.execute_command`;
* `src/src/aws_sage/parser/intent.py` — `IntentClassifier.classify`.

Python strings are Lean `String`s; `str.lower`, `startswith` and the `in`
substring test are modelled character-wise (`pyLower`, `pyStartsWith`, `pyIn`),
which agrees with CPython on these ASCII data sets.  Python dicts appear as
association lists looked up by key.  Machine floats occur only as the fixed
confidence constants of the intent classifier, on which the sole operation the
code performs is `min`; they are modelled as rationals.
-/

/-- Python `str.lower` (character-wise, as CPython does for ASCII). -/
def pyLower (s : String) : String :=
  String.mk (s.toList.map Char.toLower)

/-- Python `str.startswith`. -/
def pyStartsWith (s p : String) : Bool :=
  List.isPrefixOf p.toList s.toList

/-- Python `sub in s` substring test. -/
def pyIn (sub s : String) : Bool :=
  s.toList.tails.any (fun t => List.isPrefixOf sub.toList t)

/-- Python `x or default` for an optional string (`None` and `""` are falsy). -/
def pyOrStr (x : Option String) (d : String) : String :=
  match x with
  | some s => if s = "" then d else s
  | none => d

/-- The whitespace characters Python `str.strip` removes. -/
def pyIsSpace (c : Char) : Bool :=
  c = ' ' || c = '\t' || c = '\n' || c = '\r' || c = '\x0b' || c = '\x0c'

/-- Python `str.strip()` (character-wise). -/
def pyStrip (s : String) : String :=
  String.mk (((s.toList.dropWhile pyIsSpace).reverse.dropWhile pyIsSpace).reverse)

/-- `config.py`: enum `OperationCategory`. -/
inductive OperationCategory where
  | READ
  | WRITE
  | DESTRUCTIVE
  | BLOCKED
deriving DecidableEq, Repr

/-- `config.py`: the `.value` string of each `OperationCategory`. -/
def OperationCategory.value : OperationCategory → String
  | .READ => "read"
  | .WRITE => "write"
  | .DESTRUCTIVE => "destructive"
  | .BLOCKED => "blocked"

/-- `config.py`: enum `SafetyMode`. -/
inductive SafetyMode where
  | READ_ONLY
  | STANDARD
  | UNRESTRICTED
deriving DecidableEq, Repr

/-- `config.py`: the `.value` string of each `SafetyMode`. -/
def SafetyMode.value : SafetyMode → String
  | .READ_ONLY => "read_only"
  | .STANDARD => "standard"
  | .UNRESTRICTED => "unrestricted"

/-- `config.py`: dataclass `SafetyConfig` (the fields `evaluate` reads). -/
structure SafetyConfig where
  mode : SafetyMode
  require_confirmation_for : List OperationCategory :=
    [OperationCategory.WRITE, OperationCategory.DESTRUCTIVE]
  dry_run_when_available : Bool := true
  max_resources_per_operation : Int := 50

namespace OperationClassifier

/-- `classifier.py`: `OperationClassifier.READ_PREFIXES`. -/
def READ_PREFIXES : List String :=
  ["list", "describe", "get", "batch_get", "scan", "query", "head", "check",
   "lookup", "search", "filter", "poll"]

/-- `classifier.py`: `OperationClassifier.WRITE_PREFIXES`. -/
def WRITE_PREFIXES : List String :=
  ["create", "put", "update", "modify", "set", "tag", "untag", "enable",
   "disable", "start", "stop", "attach", "detach", "associate", "disassociate",
   "register", "add", "import", "copy", "restore", "reboot", "reset", "renew"]

/-- `classifier.py`: `OperationClassifier.DESTRUCTIVE_PREFIXES`. -/
def DESTRUCTIVE_PREFIXES : List String :=
  ["delete", "terminate", "destroy", "remove", "deregister", "revoke",
   "cancel", "purge", "release", "deprecate"]

/-- `classifier.py`: `OperationClassifier.OPERATION_OVERRIDES`
(a Python dict keyed by `(service, operation)` pairs). -/
def OPERATION_OVERRIDES : List ((String × String) × OperationCategory) :=
  [(("logs", "put_log_events"), .WRITE),
   (("kinesis", "put_record"), .WRITE),
   (("kinesis", "put_records"), .WRITE),
   (("firehose", "put_record"), .WRITE),
   (("firehose", "put_record_batch"), .WRITE),
   (("logs", "filter_log_events"), .READ),
   (("logs", "get_log_events"), .READ),
   (("cloudwatch", "get_metric_data"), .READ),
   (("cloudwatch", "get_metric_statistics"), .READ),
   (("ec2", "terminate_instances"), .DESTRUCTIVE),
   (("autoscaling", "terminate_instance_in_auto_scaling_group"), .DESTRUCTIVE),
   (("ecs", "deregister_container_instance"), .DESTRUCTIVE),
   (("ecs", "deregister_task_definition"), .DESTRUCTIVE),
   (("lambda", "delete_function"), .DESTRUCTIVE),
   (("s3", "delete_object"), .DESTRUCTIVE),
   (("s3", "delete_objects"), .DESTRUCTIVE),
   (("s3", "delete_bucket"), .DESTRUCTIVE),
   (("dynamodb", "delete_table"), .DESTRUCTIVE),
   (("dynamodb", "delete_item"), .DESTRUCTIVE),
   (("rds", "delete_db_instance"), .DESTRUCTIVE),
   (("rds", "delete_db_cluster"), .DESTRUCTIVE)]

/-- `classifier.py`: `OperationClassifier.DRY_RUN_SUPPORTED` (dict service →
set of operations; only `ec2` has entries). -/
def DRY_RUN_SUPPORTED : List (String × List String) :=
  [("ec2",
    ["run_instances", "start_instances", "stop_instances", "terminate_instances",
     "create_security_group", "delete_security_group",
     "authorize_security_group_ingress", "authorize_security_group_egress",
     "revoke_security_group_ingress", "revoke_security_group_egress",
     "create_vpc", "delete_vpc", "create_subnet", "delete_subnet",
     "create_internet_gateway", "delete_internet_gateway",
     "attach_internet_gateway", "detach_internet_gateway",
     "create_nat_gateway", "delete_nat_gateway",
     "create_route_table", "delete_route_table", "create_route", "delete_route",
     "create_volume", "delete_volume", "attach_volume", "detach_volume",
     "create_snapshot", "delete_snapshot", "create_image", "deregister_image",
     "create_key_pair", "delete_key_pair", "import_key_pair",
     "create_launch_template", "delete_launch_template",
     "modify_instance_attribute", "modify_volume"])]

/-- `classifier.py`: `OperationClassifier.classify`.  Overrides are consulted
first; otherwise prefixes are tested in priority order destructive > write >
read; unknown operations default to WRITE.  (`lru_cache` only memoises the
pure function; the Python locals `service_lower` and `operation_lower` are
inlined.) -/
def classify (service operation : String) : OperationCategory :=
  match OPERATION_OVERRIDES.lookup (pyLower service, pyLower operation) with
  | some cat => cat
  | none =>
    if DESTRUCTIVE_PREFIXES.any (fun p => pyStartsWith (pyLower operation) p) then
      .DESTRUCTIVE
    else if WRITE_PREFIXES.any (fun p => pyStartsWith (pyLower operation) p) then
      .WRITE
    else if READ_PREFIXES.any (fun p => pyStartsWith (pyLower operation) p) then
      .READ
    else
      .WRITE

/-- `classifier.py`: `OperationClassifier.supports_dry_run`. -/
def supports_dry_run (service operation : String) : Bool :=
  match DRY_RUN_SUPPORTED.lookup (pyLower service) with
  | some ops => ops.contains (pyLower operation)
  | none => false

end OperationClassifier

/-- `denylist.py`: the `DENYLIST` set of permanently blocked operation keys. -/
def DENYLIST : List String :=
  ["iam.delete_account_alias",
   "iam.delete_account_password_policy",
   "iam.update_account_password_policy",
   "iam.create_account_alias",
   "iam.delete_service_linked_role",
   "iam.delete_saml_provider",
   "iam.delete_open_id_connect_provider",
   "iam.generate_credential_report",
   "organizations.leave_organization",
   "organizations.delete_organization",
   "organizations.remove_account_from_organization",
   "organizations.close_account",
   "organizations.delete_organizational_unit",
   "cloudtrail.delete_trail",
   "cloudtrail.stop_logging",
   "cloudtrail.update_trail",
   "cloudtrail.delete_event_data_store",
   "guardduty.delete_detector",
   "guardduty.disable_organization_admin_account",
   "guardduty.disassociate_from_administrator_account",
   "guardduty.disassociate_members",
   "guardduty.delete_members",
   "config.delete_configuration_recorder",
   "config.stop_configuration_recorder",
   "config.delete_delivery_channel",
   "securityhub.disable_security_hub",
   "securityhub.delete_insight",
   "securityhub.disable_import_findings_for_product",
   "kms.schedule_key_deletion",
   "kms.disable_key",
   "kms.delete_alias",
   "kms.delete_imported_key_material",
   "s3control.delete_public_access_block",
   "s3control.put_public_access_block",
   "s3.delete_bucket_policy",
   "s3.put_bucket_policy",
   "s3.put_bucket_acl",
   "s3.delete_bucket_encryption",
   "s3.put_public_access_block",
   "s3.delete_public_access_block",
   "ec2.delete_flow_logs",
   "ec2.delete_default_vpc",
   "ec2.delete_default_subnet",
   "rds.delete_db_cluster_snapshot",
   "rds.delete_db_snapshot",
   "rds.delete_db_instance_automated_backup",
   "rds.modify_db_cluster",
   "backup.delete_backup_vault",
   "backup.delete_backup_plan",
   "backup.delete_recovery_point",
   "route53.delete_hosted_zone",
   "route53domains.delete_domain",
   "route53domains.transfer_domain_to_another_aws_account",
   "acm.delete_certificate",
   "secretsmanager.delete_secret",
   "ce.delete_cost_category_definition",
   "budgets.delete_budget",
   "cur.delete_report_definition",
   "service-quotas.delete_service_quota_increase_request_from_template",
   "sso-admin.delete_instance",
   "sso-admin.delete_permission_set",
   "identitystore.delete_user",
   "identitystore.delete_group",
   "ram.delete_resource_share",
   "ram.disassociate_resource_share",
   "servicecatalog.delete_portfolio",
   "servicecatalog.delete_product",
   "controltower.disable_control",
   "controltower.delete_landing_zone"]

/-- `denylist.py`: `DOUBLE_CONFIRM_OPERATIONS`. -/
def DOUBLE_CONFIRM_OPERATIONS : List String :=
  ["ec2.terminate_instances", "rds.delete_db_instance", "rds.delete_db_cluster",
   "dynamodb.delete_table", "s3.delete_bucket", "lambda.delete_function",
   "ecs.delete_cluster", "eks.delete_cluster", "cloudformation.delete_stack",
   "elasticbeanstalk.terminate_environment"]

/-- `denylist.py`: `WARN_OPERATIONS`. -/
def WARN_OPERATIONS : List String :=
  ["iam.attach_role_policy", "iam.attach_user_policy", "iam.put_role_policy",
   "iam.put_user_policy", "iam.create_access_key",
   "ec2.authorize_security_group_ingress", "ec2.authorize_security_group_egress",
   "s3.put_bucket_versioning", "rds.modify_db_instance",
   "lambda.update_function_configuration"]

/-- `denylist.py`: the key `f"{service.lower()}.{operation.lower()}"`. -/
def denyKey (service operation : String) : String :=
  pyLower service ++ "." ++ pyLower operation

/-- `denylist.py`: `is_operation_blocked`. -/
def is_operation_blocked (service operation : String) : Bool :=
  DENYLIST.contains (denyKey service operation)

/-- `denylist.py`: `requires_double_confirmation`. -/
def requires_double_confirmation (service operation : String) : Bool :=
  DOUBLE_CONFIRM_OPERATIONS.contains (denyKey service operation)

/-- `denylist.py`: `should_warn`. -/
def should_warn (service operation : String) : Bool :=
  WARN_OPERATIONS.contains (denyKey service operation)

/-- `denylist.py`: the categorising `if`/`elif` chain inside
`get_block_reason`, applied to the already-built key. -/
def blockReasonFor (key : String) : String :=
  if pyIn "cloudtrail" key || pyIn "guardduty" key || pyIn "config" key
      || pyIn "securityhub" key then
    "This operation could disable security monitoring or audit logging"
  else if pyIn "iam" key
      && (pyIn "account" key || pyIn "saml" key || pyIn "oidc" key) then
    "This operation could affect account-level identity configuration"
  else if pyIn "organizations" key then
    "This operation could affect your AWS Organization structure"
  else if pyIn "kms" key then
    "This operation could permanently destroy encryption keys"
  else if pyIn "backup" key || pyIn "snapshot" key then
    "This operation could destroy backup data"
  else if pyIn "s3" key && (pyIn "policy" key || pyIn "acl" key || pyIn "public" key) then
    "This operation could change S3 bucket security settings"
  else if pyIn "route53" key || pyIn "domain" key then
    "This operation could affect DNS configuration"
  else
    "This operation is blocked for security reasons"

/-- `denylist.py`: `get_block_reason` (`None` when the key is not denylisted). -/
def get_block_reason (service operation : String) : Option String :=
  let key := denyKey service operation
  if ¬ DENYLIST.contains key then none
  else some (blockReasonFor key)

/-- `validator.py`: dataclass `SafetyDecision` with its field defaults. -/
structure SafetyDecision where
  allowed : Bool
  category : OperationCategory
  reason : String := ""
  requires_confirmation : Bool := false
  requires_double_confirmation : Bool := false
  can_dry_run : Bool := false
  warning : Option String := none
  suggested_mode : Option SafetyMode := none
  affected_resources : Nat := 0

/-- The bulk-parameter shapes `_count_affected_resources` inspects.  A field is
`some l` when the corresponding key is present in the parameter dict and holds
the list `l`; the nested `delete` models `parameters["Delete"]` with its
optional `"Objects"` entry.  (Keys bound to non-list values make the Python
`len` call fail and are outside this model.) -/
structure BulkParams (α : Type) where
  instanceIds : Option (List α) := none
  resourceIds : Option (List α) := none
  resourceArns : Option (List α) := none
  deleteObjects : Option (Option (List α)) := none
  functionNames : Option (List α) := none

/-- One `count = max(count, len(parameters[key]))` step of
`_count_affected_resources`, skipped when the key is absent. -/
def bulkStep {α : Type} (entry : Option (List α)) (count : Nat) : Nat :=
  match entry with
  | some l => max count l.length
  | none => count

/-- The nested `Delete`/`Objects` step of `_count_affected_resources`,
skipped unless both keys are present. -/
def bulkStepNested {α : Type} (entry : Option (Option (List α))) (count : Nat) : Nat :=
  match entry with
  | some (some objs) => max count objs.length
  | some none => count
  | none => count

/-- `validator.py`: `SafetyEnforcer._count_affected_resources` — start at 1
and take the `max` with each recognised bulk-parameter length, in source
order (InstanceIds, ResourceIds, ResourceArns, Delete.Objects,
FunctionNames). -/
def countAffectedResources {α : Type} (p : BulkParams α) : Nat :=
  bulkStep p.functionNames
    (bulkStepNested p.deleteObjects
      (bulkStep p.resourceArns
        (bulkStep p.resourceIds
          (bulkStep p.instanceIds 1))))

/-- `validator.py`: `SafetyEnforcer._get_allowed_categories` (sets modelled as
lists). -/
def getAllowedCategories (mode : SafetyMode) : List OperationCategory :=
  match mode with
  | .READ_ONLY => [.READ]
  | .STANDARD => [.READ, .WRITE, .DESTRUCTIVE]
  | .UNRESTRICTED => [.READ, .WRITE, .DESTRUCTIVE]

/-- `validator.py`: `SafetyEnforcer._suggest_mode_for_category`. -/
def suggestModeForCategory (category : OperationCategory) : SafetyMode :=
  if category = .WRITE ∨ category = .DESTRUCTIVE then .STANDARD
  else .READ_ONLY

/-- `validator.py`: the denylist fallback reason built inside `evaluate`. -/
def blockedFallbackReason (service operation : String) : String :=
  let svc := service
  let op := operation
  s!"Operation '{svc}.{op}' is blocked for security reasons"

/-- `validator.py`: the mode-denial reason built inside `evaluate`. -/
def modeDenialReason (operation : String) (category : OperationCategory)
    (mode : SafetyMode) : String :=
  let op := operation
  let catv := category.value
  let modev := mode.value
  s!"Operation '{op}' ({catv}) is not allowed in {modev} mode"

/-- `validator.py`: the blast-radius denial reason built inside `evaluate`. -/
def blastRadiusReason (affected : Nat) (limit : Int) : String :=
  let n := affected
  let m := limit
  s!"Operation would affect {n} resources, exceeding limit of {m}"

/-- `validator.py`: the security-implication warning built inside `evaluate`. -/
def warnMsg (operation : String) : String :=
  let op := operation
  s!"Operation '{op}' can have significant security implications"

/-- `validator.py`: `SafetyEnforcer.evaluate`.  Steps in source order:
denylist, classification, safety-mode gate, confirmation flags, dry-run,
warning, blast-radius ceiling, allow.  The Python locals `category`,
`requires_confirmation`, `double_confirm`, `can_dry_run`, `warning` and
`affected_count` are inlined (each names a pure expression). -/
def evaluate {α : Type} (config : SafetyConfig) (service operation : String)
    (parameters : BulkParams α) : SafetyDecision :=
  if is_operation_blocked service operation then
    { allowed := false
      category := .BLOCKED
      reason := pyOrStr (get_block_reason service operation)
        (blockedFallbackReason service operation) }
  else if ¬ (getAllowedCategories config.mode).contains
      (OperationClassifier.classify service operation) then
    { allowed := false
      category := OperationClassifier.classify service operation
      reason := modeDenialReason operation
        (OperationClassifier.classify service operation) config.mode
      suggested_mode := some (suggestModeForCategory
        (OperationClassifier.classify service operation)) }
  else if (countAffectedResources parameters : Int) > config.max_resources_per_operation then
    { allowed := false
      category := OperationClassifier.classify service operation
      reason := blastRadiusReason (countAffectedResources parameters)
        config.max_resources_per_operation
      affected_resources := countAffectedResources parameters }
  else
    { allowed := true
      category := OperationClassifier.classify service operation
      requires_confirmation := config.require_confirmation_for.contains
        (OperationClassifier.classify service operation)
      requires_double_confirmation := requires_double_confirmation service operation
      can_dry_run := config.dry_run_when_available
        && OperationClassifier.supports_dry_run service operation
      warning := if should_warn service operation then some (warnMsg operation) else none
      affected_resources := countAffectedResources parameters }

/-- A Python/JSON-style value, as passed through responses and parameter
dicts.  (`datetime` objects, handled by `_clean_response` via `isoformat`,
are not modelled.) -/
inductive PyVal where
  | vnone
  | vbool (b : Bool)
  | vint (n : Int)
  | vfloat (q : ℚ)
  | vstr (s : String)
  | vbytes (bs : List Nat)
  | vlist (xs : List PyVal)
  | vdict (fields : List (String × PyVal))

/-- A boto3-style response dict. -/
abbrev Response := List (String × PyVal)

/-- `pagination.py` / `_extract_results`: the auto-detection loop returning
the first list-valued field of the response. -/
def firstListValue : List (String × PyVal) → Option (List PyVal)
  | [] => none
  | (_, PyVal.vlist xs) :: _ => some xs
  | _ :: rest => firstListValue rest

/-- `pagination.py`: `PaginationHandler._extract_results`.  Drops
`ResponseMetadata`, honours a truthy `result_key` that is present (wrapping a
non-list value in a singleton), otherwise auto-detects the first list value,
and finally falls back to the whole response as a single item (or `[]` when
the response dict is empty). -/
def extractResults (response : Response) (result_key : Option String) : List PyVal :=
  let response := response.filter (fun kv => kv.1 ≠ "ResponseMetadata")
  let auto :=
    match firstListValue response with
    | some xs => xs
    | none => if response.isEmpty then [] else [PyVal.vdict response]
  match result_key with
  | some key =>
    if key = "" then auto
    else
      match response.lookup key with
      | some (PyVal.vlist xs) => xs
      | some v => [v]
      | none => auto
  | none => auto

/-- The external boto3 client as `execute_paginated` observes it:
`paginator = none` models `client.get_paginator(operation)` raising (the
operation has no paginator); `paginator = some (pages, raisesAfter)` models a
paginator deterministically yielding `pages`, raising an exception when the
iterator is advanced past them if `raisesAfter` is set; `response` is the
result of the direct `getattr(client, operation)(**parameters)` call. -/
structure PageClient where
  paginator : Option (List Response × Bool)
  response : Response

/-- `pagination.py`: `PaginationHandler._single_call`. -/
def singleCall (client : PageClient) (result_key : Option String) : List PyVal × Bool :=
  (extractResults client.response result_key, false)

/-- Outcome of the `for page_num, page in enumerate(...)` loop in `_paginate`:
`broke` is a `break` (both `break`s set `truncated = True` immediately
before, and nothing else sets it), `completed` is normal exhaustion with
`truncated` still `False`. -/
inductive LoopOutcome where
  | completed (results : List PyVal)
  | broke (results : List PyVal)

/-- `pagination.py`: the page loop of `PaginationHandler._paginate`.
Ceilings are `Nat`: a negative Python ceiling behaves identically to `0`
(the comparison fires at once).  -/
def paginateLoop (maxPages maxItems : Nat) (result_key : Option String) :
    List Response → Nat → Nat → List PyVal → LoopOutcome
  | [], _, _, results => .completed results
  | page :: rest, page_num, item_count, results =>
    if page_num ≥ maxPages then .broke results
    else
      let page_results := extractResults page result_key
      let results := results ++ page_results
      let item_count := item_count + page_results.length
      if item_count ≥ maxItems then .broke (results.take maxItems)
      else paginateLoop maxPages maxItems result_key rest (page_num + 1) item_count results

/-- `pagination.py`: `PaginationHandler.execute_paginated` together with
`_supports_pagination` and `_paginate`.  `_supports_pagination` and
`_paginate` call `client.get_paginator` on the same client, so in this
deterministic model both observe the same `paginator` field; any exception
inside `_paginate` (a missing paginator or a raise while iterating) falls
back to `_single_call`. -/
def executePaginated (client : PageClient) (maxPages maxItems : Nat)
    (result_key : Option String) : List PyVal × Bool :=
  match client.paginator with
  | none => singleCall client result_key
  | some (pages, raisesAfter) =>
    match paginateLoop maxPages maxItems result_key pages 0 0 [] with
    | .broke results => (results, true)
    | .completed results =>
      if raisesAfter then singleCall client result_key else (results, false)

/-- Total number of items the pages of a paginator yield under
`_extract_results`. -/
def totalExtracted (pages : List Response) (result_key : Option String) : Nat :=
  (pages.map (fun p => (extractResults p result_key).length)).sum

/-- Concatenation of all extracted page results, in page order. -/
def joinExtracted (pages : List Response) (result_key : Option String) : List PyVal :=
  (pages.map (fun p => extractResults p result_key)).flatten

/-- `service_models.py`: the `{"input": {"shape": ...}}` part of an operation
entry of a service model. -/
structure OperationShapeRef where
  inputShape : Option String := none

/-- `service_models.py`: an input shape: its `"required"` list and its
`"members"` dict, each member carrying its optional `"type"` string. -/
structure InputShape where
  required : List String := []
  members : List (String × Option String) := []

/-- One service model as loaded from botocore (`operations` and `shapes`). -/
structure ServiceModel where
  operations : List (String × OperationShapeRef) := []
  shapes : List (String × InputShape) := []

/-- `service_models.py`: `ServiceModelRegistry`.  The botocore `Loader` is
external; its catalog is the `services` data, and the `difflib`-based
`_find_similar_services` / `_find_similar_operations` helpers (used only to
decorate error messages) are supplied as functions. -/
structure ServiceModelRegistry where
  services : List (String × ServiceModel)
  findSimilarServices : String → List String := fun _ => []
  findSimilarOperations : String → String → List String := fun _ _ => []

/-- Python `str.capitalize`: first character upper-cased, the rest lower-cased. -/
def pyCapitalize (w : String) : String :=
  match w.toList with
  | [] => ""
  | c :: cs => String.mk (c.toUpper :: cs.map Char.toLower)

/-- Python `str.split` on a single-character separator (character-wise;
adjacent separators yield empty words, as in Python). -/
def splitOnChar (sep : Char) : List Char → List (List Char)
  | [] => [[]]
  | x :: xs =>
    if x = sep then [] :: splitOnChar sep xs
    else
      match splitOnChar sep xs with
      | [] => [[x]]
      | w :: ws => (x :: w) :: ws

/-- `service_models.py`: `"".join(word.capitalize() for word in operation.split("_"))`. -/
def pascalCase (operation : String) : String :=
  String.join ((splitOnChar '_' operation.toList).map (fun w => pyCapitalize (String.mk w)))

namespace ServiceModelRegistry

/-- `service_models.py`: `service_exists` (membership in the loader's
service list). -/
def serviceExists (reg : ServiceModelRegistry) (service : String) : Bool :=
  (reg.services.map Prod.fst).contains (pyLower service)

/-- `service_models.py`: `get_service_model`. -/
def getServiceModel (reg : ServiceModelRegistry) (service : String) : Option ServiceModel :=
  reg.services.lookup (pyLower service)

/-- `service_models.py`: `get_operations`. -/
def getOperations (reg : ServiceModelRegistry) (service : String) :
    List (String × OperationShapeRef) :=
  match reg.getServiceModel service with
  | some m => m.operations
  | none => []

/-- `service_models.py`: `operation_exists` (exact name or PascalCase). -/
def operationExists (reg : ServiceModelRegistry) (service operation : String) : Bool :=
  let operations := (reg.getOperations service).map Prod.fst
  operations.contains operation || operations.contains (pascalCase operation)

/-- `service_models.py`: `get_operation_model`. -/
def getOperationModel (reg : ServiceModelRegistry) (service operation : String) :
    Option OperationShapeRef :=
  let operations := reg.getOperations service
  match operations.lookup operation with
  | some m => some m
  | none => operations.lookup (pascalCase operation)

/-- `service_models.py`: `get_input_shape` (a missing or falsy `""` shape
name yields `None`). -/
def getInputShape (reg : ServiceModelRegistry) (service operation : String) :
    Option InputShape :=
  match reg.getOperationModel service operation with
  | none => none
  | some opModel =>
    match opModel.inputShape with
    | none => none
    | some shapeName =>
      if shapeName = "" then none
      else
        match reg.getServiceModel service with
        | some m => m.shapes.lookup shapeName
        | none => none

/-- `service_models.py`: `get_required_parameters`. -/
def getRequiredParameters (reg : ServiceModelRegistry) (service operation : String) :
    List String :=
  match reg.getInputShape service operation with
  | some shape => shape.required
  | none => []

/-- `service_models.py`: `get_parameter_type`. -/
def getParameterType (reg : ServiceModelRegistry) (service operation parameter : String) :
    Option String :=
  match reg.getInputShape service operation with
  | none => none
  | some shape =>
    match shape.members.lookup parameter with
    | none => none
    | some t => t

end ServiceModelRegistry

namespace PyVal

/-- `isinstance(value, str)`. -/
def isStr : PyVal → Bool
  | .vstr _ => true
  | _ => false

/-- `isinstance(value, int)` — Python `bool` is a subclass of `int`. -/
def isIntLike : PyVal → Bool
  | .vint _ => true
  | .vbool _ => true
  | _ => false

/-- `isinstance(value, bool)`. -/
def isBoolVal : PyVal → Bool
  | .vbool _ => true
  | _ => false

/-- `isinstance(value, list)`. -/
def isListVal : PyVal → Bool
  | .vlist _ => true
  | _ => false

/-- `isinstance(value, dict)`. -/
def isDictVal : PyVal → Bool
  | .vdict _ => true
  | _ => false

/-- `isinstance(value, bytes)`. -/
def isBytesVal : PyVal → Bool
  | .vbytes _ => true
  | _ => false

/-- `isinstance(value, float)` — a Python `int`/`bool` is *not* a `float`. -/
def isFloatVal : PyVal → Bool
  | .vfloat _ => true
  | _ => false

/-- Python `type(value).__name__`. -/
def typeName : PyVal → String
  | .vnone => "NoneType"
  | .vbool _ => "bool"
  | .vint _ => "int"
  | .vfloat _ => "float"
  | .vstr _ => "str"
  | .vbytes _ => "bytes"
  | .vlist _ => "list"
  | .vdict _ => "dict"

end PyVal

/-- `service_models.py`: `ServiceModelRegistry._type_matches` (the
`type_map` table; an expected type outside the table matches anything). -/
def typeMatches (value : PyVal) (expected : String) : Bool :=
  let e := pyLower expected
  if e = "string" then value.isStr
  else if e = "integer" then value.isIntLike
  else if e = "long" then value.isIntLike
  else if e = "boolean" then value.isBoolVal
  else if e = "list" then value.isListVal
  else if e = "map" then value.isDictVal
  else if e = "structure" then value.isDictVal
  else if e = "blob" then value.isBytesVal || value.isStr
  else if e = "timestamp" then value.isStr || value.isIntLike || value.isFloatVal
  else if e = "float" then value.isIntLike || value.isFloatVal
  else if e = "double" then value.isIntLike || value.isFloatVal
  else true

/-- `schemas.py`: pydantic model `ValidationResult`, with its defaults. -/
structure ValidationResult where
  valid : Bool
  errors : List String := []
  warnings : List String := []
  missing_required : List String := []
  unknown_parameters : List String := []
  type_mismatches : List String := []

/-- `service_models.py`: the message for an unknown service. -/
def unknownServiceMsg (service : String) (similar : List String) : String :=
  let svc := service
  let suggestion :=
    if similar.isEmpty then ""
    else
      let names := String.intercalate ", " (similar.take 3)
      s!" Did you mean: {names}?"
  s!"Unknown service '{svc}'.{suggestion}"

/-- `service_models.py`: the message for an unknown operation. -/
def unknownOperationMsg (service operation : String) (similar : List String) : String :=
  let svc := service
  let op := operation
  let suggestion :=
    if similar.isEmpty then ""
    else
      let names := String.intercalate ", " (similar.take 3)
      s!" Similar operations: {names}"
  s!"Operation '{op}' not found for service '{svc}'.{suggestion}"

/-- `service_models.py`: the aggregated missing-required-parameters error. -/
def missingRequiredMsg (missing : List String) : String :=
  let names := String.intercalate ", " missing
  s!"Missing required parameters: {names}"

/-- `service_models.py`: the unknown-parameters warning. -/
def unknownParametersMsg (unknown : List String) : String :=
  let names := String.intercalate ", " unknown
  s!"Unknown parameters (may be ignored): {names}"

/-- `service_models.py`: the per-parameter type-mismatch error message. -/
def typeMismatchMsg (name expected : String) (value : PyVal) : String :=
  let n := name
  let e := expected
  let t := value.typeName
  s!"Parameter '{n}' should be {e}, got {t}"

/-- `service_models.py`: the per-parameter body of the type-validation loop
of `validate_operation` — an error message when the parameter has a truthy
declared type that the provided value fails to match. -/
def typeErrorFor (reg : ServiceModelRegistry) (service operation : String)
    (kv : String × PyVal) : Option String :=
  match reg.getParameterType service operation kv.1 with
  | some t =>
    if t ≠ "" ∧ typeMatches kv.2 t = false then some (typeMismatchMsg kv.1 t kv.2)
    else none
  | none => none

/-- `service_models.py`: `ServiceModelRegistry.validate_operation`.  Unknown
service/operation fail fast; missing required parameters produce one
aggregated error; unknown provided parameters produce a warning; a provided
parameter whose declared type exists (and is truthy) but does not match is
appended to `errors`; the result is invalid iff `errors` is non-empty. -/
def validateOperation (reg : ServiceModelRegistry) (service operation : String)
    (parameters : List (String × PyVal)) : ValidationResult :=
  if ¬ reg.serviceExists service then
    { valid := false
      errors := [unknownServiceMsg service (reg.findSimilarServices service)] }
  else if ¬ reg.operationExists service operation then
    { valid := false
      errors := [unknownOperationMsg service operation
        (reg.findSimilarOperations service operation)] }
  else
    let required := reg.getRequiredParameters service operation
    let paramKeys := parameters.map Prod.fst
    let missing := required.filter (fun p => ¬ paramKeys.contains p)
    let missingErrors := if missing.isEmpty then [] else [missingRequiredMsg missing]
    let warnings :=
      match reg.getInputShape service operation with
      | some shape =>
        let knownParams := shape.members.map Prod.fst
        let unknown := paramKeys.filter (fun p => ¬ knownParams.contains p)
        if unknown.isEmpty then [] else [unknownParametersMsg unknown]
      | none => []
    let typeErrors := parameters.filterMap (typeErrorFor reg service operation)
    let errors := missingErrors ++ typeErrors
    if errors.isEmpty then
      { valid := true, warnings := warnings }
    else
      { valid := false
        errors := errors
        warnings := warnings
        missing_required := missing }

/-- `schemas.py`: pydantic model `StructuredCommand` (the fields the engine
and the intent classifier use; the pydantic validator lower-cases `service`
and `operation` on construction, which the constructing code below applies
explicitly). -/
structure StructuredCommand where
  service : String
  operation : String
  parameters : List (String × PyVal) := []
  category : OperationCategory := .READ
  region : Option String := none
  raw_input : String := ""
  confidence : ℚ := 1

/-- `engine.py`: dataclass `ExecutionResult` with its field defaults.
`data : Any = None` is modelled as `Option PyVal` with `none` for the
`None` default. -/
structure ExecutionResult where
  success : Bool
  data : Option PyVal := none
  error : Option String := none
  error_code : Option String := none
  service : Option String := none
  operation : Option String := none
  category : Option String := none
  region : Option String := none
  formatted_table : Option String := none
  count : Option Nat := none
  truncated : Bool := false
  requires_confirmation : Bool := false
  confirmation_message : Option String := none
  suggestions : List String := []

/-- Python `a or b` on two optional strings (`command.region or
self.session_manager.active_region`). -/
def pyOrOpt (a b : Option String) : Option String :=
  match a with
  | some s => if s = "" then b else some s
  | none => b

/-- The view `_count_affected_resources` takes of a parameter dict: each
bulk key that is present with a list value.  (A bulk key bound to a
non-list value makes the Python `len` call raise and is outside the model.) -/
def dictBulkView (parameters : List (String × PyVal)) : BulkParams PyVal :=
  { instanceIds :=
      match parameters.lookup "InstanceIds" with
      | some (PyVal.vlist l) => some l
      | _ => none
    resourceIds :=
      match parameters.lookup "ResourceIds" with
      | some (PyVal.vlist l) => some l
      | _ => none
    resourceArns :=
      match parameters.lookup "ResourceArns" with
      | some (PyVal.vlist l) => some l
      | _ => none
    deleteObjects :=
      match parameters.lookup "Delete" with
      | some (PyVal.vdict d) =>
        some (match d.lookup "Objects" with
          | some (PyVal.vlist l) => some l
          | _ => none)
      | _ => none
    functionNames :=
      match parameters.lookup "FunctionNames" with
      | some (PyVal.vlist l) => some l
      | _ => none }

mutual

/-- `engine.py`: `ExecutionEngine._clean_response` (dicts lose their
`ResponseMetadata` entries recursively; `datetime` values are outside the
model). -/
def cleanResponse : PyVal → PyVal
  | .vdict fields => .vdict (cleanFields fields)
  | .vlist xs => .vlist (cleanList xs)
  | v => v

/-- `_clean_response` mapped over the items of a list value. -/
def cleanList : List PyVal → List PyVal
  | [] => []
  | x :: xs => cleanResponse x :: cleanList xs

/-- `_clean_response` mapped over the entries of a dict value, dropping
`ResponseMetadata`. -/
def cleanFields : List (String × PyVal) → List (String × PyVal)
  | [] => []
  | (k, v) :: rest =>
    if k = "ResponseMetadata" then cleanFields rest
    else (k, cleanResponse v) :: cleanFields rest

end

/-- `engine.py`: `ExecutionEngine._build_confirmation_message`. -/
def buildConfirmationMessage (command : StructuredCommand)
    (decision : SafetyDecision) : String :=
  let op := command.operation
  let svc := command.service
  let msg := s!"Operation '{op}' on {svc}"
  let msg := msg ++
    (if decision.category = .DESTRUCTIVE then " is DESTRUCTIVE"
     else " will modify resources")
  let msg := msg ++
    (if decision.affected_resources > 1 then
      let n := decision.affected_resources
      s!" ({n} resources affected)"
     else "")
  let msg := msg ++
    (match decision.warning with
     | some w => if w = "" then "" else s!". Warning: {w}"
     | none => "")
  msg ++ ". Set confirm=true to proceed."

/-- The outcome of the `try` block of `execute_command` — the interaction
with the external boto3 client (client construction, the (possibly
paginated) call, and `ErrorHandler`'s normalization of a raised exception):
`ok` carries the extracted data and the pagination truncation flag;
`clientError` a `ClientError` normalized to a message and the optional
`aws_error_code` detail; `paramError` a `ParamValidationError`; `otherError`
any other exception, stringified. -/
inductive ExecAttempt where
  | ok (data : PyVal) (truncated : Bool)
  | clientError (message : String) (awsErrorCode : Option String)
  | paramError (message : String)
  | otherError (message : String)

/-- `engine.py`: `ExecutionEngine.execute_command`.  External collaborators
appear as arguments: `attempt` is the outcome of the boto3 interaction,
`activeRegion` is `session_manager.active_region`,
`operationSuggestionsFor` is `_get_operation_suggestions` (it feeds only the
`suggestions` field), and `formatTable` is `_format_as_table`.  The
context-recording side effects have no bearing on the returned value and are
not modelled. -/
def executeCommand (reg : ServiceModelRegistry) (config : SafetyConfig)
    (command : StructuredCommand) (confirm : Bool) (attempt : ExecAttempt)
    (activeRegion : Option String)
    (operationSuggestionsFor : String → List String)
    (formatTable : List PyVal → Option String) : ExecutionResult :=
  let validation := validateOperation reg command.service command.operation command.parameters
  if ¬ validation.valid then
    { success := false
      error := some (String.intercalate "; " validation.errors)
      service := some command.service
      operation := some command.operation
      suggestions := operationSuggestionsFor command.service }
  else
    let safety_decision := evaluate config command.service command.operation
      (dictBulkView command.parameters)
    if ¬ safety_decision.allowed then
      { success := false
        error := some safety_decision.reason
        service := some command.service
        operation := some command.operation
        category := some safety_decision.category.value
        suggestions :=
          match safety_decision.suggested_mode with
          | some m =>
            let mv := m.value
            [s!"set_safety_mode {mv}"]
          | none => [] }
    else if safety_decision.requires_confirmation ∧ ¬ confirm then
      { success := false
        service := some command.service
        operation := some command.operation
        category := some safety_decision.category.value
        requires_confirmation := true
        confirmation_message := some (buildConfirmationMessage command safety_decision) }
    else
      match attempt with
      | .ok rawData truncated =>
        let data := cleanResponse rawData
        let formattedAndCount : Option String × Option Nat :=
          match data with
          | .vlist xs => (formatTable xs, some xs.length)
          | _ => (none, none)
        { success := true
          data := some data
          service := some command.service
          operation := some command.operation
          category := some command.category.value
          region := pyOrOpt command.region activeRegion
          formatted_table := formattedAndCount.1
          count := formattedAndCount.2
          truncated := truncated }
      | .clientError message awsErrorCode =>
        { success := false
          error := some message
          error_code := awsErrorCode
          service := some command.service
          operation := some command.operation }
      | .paramError message =>
        { success := false
          error := some message
          service := some command.service
          operation := some command.operation }
      | .otherError message =>
        { success := false
          error := some message
          service := some command.service
          operation := some command.operation }

/-- `schemas.py` / `intent.py`: `ParsedIntent` (confidence as a rational). -/
structure ParsedIntent where
  intent_type : String
  confidence : ℚ
  raw_input : String

/-- `schemas.py` / `intent.py`: `ParsedService`. -/
structure ParsedService where
  service_name : String
  display_name : String
  confidence : ℚ
  matched_keywords : List String := []

/-- `schemas.py` / `intent.py`: `ParsedOperation`. -/
structure ParsedOperation where
  operation_name : String
  category : OperationCategory
  confidence : ℚ
  suggested_alternatives : List String := []

/-- `schemas.py` / `intent.py`: `ParsedParameter`. -/
structure ParsedParameter where
  name : String
  value : PyVal
  source : String := "inferred"
  confidence : ℚ := 1

/-- `schemas.py`: `ParseResult` — `ok` is `ParseResult.success_result`
(success with the command and the stage artifacts), `err` is
`ParseResult.error_result` (failure with message and suggestions). -/
inductive ParseResult where
  | ok (command : StructuredCommand) (intent : ParsedIntent)
      (service : ParsedService) (operation : ParsedOperation)
      (parameters : List ParsedParameter)
  | err (message : String) (suggestions : List String)

/-- The four stage helpers `IntentClassifier.classify` calls, as functions:
`_classify_intent` and `_identify_service` (regex- and keyword-driven, may
fail), `_determine_operation` (total) and `_extract_parameters`.  Supplying
them as data lets the theorems below quantify over every behaviour of the
regex stages, which are not themselves re-implemented here. -/
structure IntentStages where
  classifyIntent : String → Option ParsedIntent
  identifyService : String → Option ParsedService
  determineOperation : ParsedIntent → ParsedService → String → ParsedOperation
  extractParameters : String → String → String → List ParsedParameter

/-- `intent.py`: `IntentClassifier.classify` — strip the query, fail on
empty input, then run intent, service, operation and parameter stages in
order, short-circuiting with a distinct error on the first two; on success
build the `StructuredCommand` whose confidence is the minimum of the three
stage confidences (pydantic lower-cases the `service` and `operation`
fields). -/
def intentClassify (st : IntentStages) (query : String) : ParseResult :=
  let query := pyStrip query
  if query = "" then .err "Empty query provided" []
  else
    match st.classifyIntent query with
    | none =>
      .err "Could not understand the intent. Try phrases like 'list buckets' or 'describe instances'."
        ["list S3 buckets", "show EC2 instances", "get Lambda functions"]
    | some intent =>
      match st.identifyService query with
      | none =>
        .err "Could not identify the AWS service. Please specify a service like S3, EC2, or Lambda."
          ["list S3 buckets", "describe EC2 instances", "get IAM roles"]
      | some service =>
        let operation := st.determineOperation intent service query
        let parameters := st.extractParameters query service.service_name operation.operation_name
        let command : StructuredCommand :=
          { service := pyLower service.service_name
            operation := pyLower operation.operation_name
            parameters := parameters.map (fun p => (p.name, p.value))
            category := operation.category
            raw_input := query
            confidence := min intent.confidence (min service.confidence operation.confidence) }
        .ok command intent service operation parameters

/-! ### Concrete fixtures used by witnesses and counterexamples -/

/-- A `SafetyConfig` in UNRESTRICTED mode with the default ceiling of 50. -/
def cfgUnrestricted : SafetyConfig := { mode := .UNRESTRICTED }

/-- A `SafetyConfig` in READ_ONLY mode (the defaults of `SafetyConfig`). -/
def cfgReadOnly : SafetyConfig := { mode := .READ_ONLY }

/-- An empty parameter dict, seen through the bulk-parameter view. -/
def emptyBulk : BulkParams String := {}

/-- `{InstanceIds: [100 ids]}` seen through the bulk-parameter view. -/
def bulk100 : BulkParams String :=
  { instanceIds := some (List.replicate 100 "i-0123456789abcdef0") }

/-- A registry holding a small botocore-style model of `s3` with
`ListBuckets` (no input shape) and `GetObject` (two required string members
and an optional integer member). -/
def sampleRegistry : ServiceModelRegistry :=
  { services :=
      [("s3",
        { operations :=
            [("ListBuckets", {}),
             ("GetObject", { inputShape := some "GetObjectRequest" })]
          shapes :=
            [("GetObjectRequest",
              { required := ["Bucket", "Key"]
                members :=
                  [("Bucket", some "string"),
                   ("Key", some "string"),
                   ("MaxKeys", some "integer")] })] })] }

/-- `{Bucket: "my-bucket", Key: 7}` — both required parameters present, the
second with a type that mismatches its declared `string`. -/
def mismatchParams : List (String × PyVal) :=
  [("Bucket", PyVal.vstr "my-bucket"), ("Key", PyVal.vint 7)]

/-- A response page holding `n` items under an `Items` key. -/
def pageOf (n : Nat) : Response :=
  [("Items", PyVal.vlist (List.replicate n (PyVal.vint 0)))]

/-- Three pages of 40 items each. -/
def threePages40 : List Response :=
  List.replicate 3 (pageOf 40)

/-- A client whose paginator yields three pages of 40 items. -/
def clientPaged : PageClient :=
  { paginator := some (threePages40, false), response := [] }

/-- A client whose paginator yields no pages at all (and does not raise). -/
def clientEmptyPager : PageClient :=
  { paginator := some ([], false), response := pageOf 3 }

/-- A client with no paginator (`get_paginator` raises); the direct call
returns three items. -/
def clientNoPager : PageClient :=
  { paginator := none, response := pageOf 3 }

/-- A client whose paginator yields one 2-item page and then raises; the
direct call returns three items. -/
def clientRaises : PageClient :=
  { paginator := some ([pageOf 2], true), response := pageOf 3 }

/-- A valid, read-only structured command `s3.list_buckets`. -/
def cmdListBuckets : StructuredCommand :=
  { service := "s3", operation := "list_buckets" }

/-- Fixed stage outputs for exercising `intentClassify` concretely. -/
def demoIntent : ParsedIntent :=
  { intent_type := "list", confidence := 9/10, raw_input := "list buckets" }

/-- Fixed service-stage output. -/
def demoService : ParsedService :=
  { service_name := "s3", display_name := "Amazon S3", confidence := 7/10 }

/-- Fixed operation-stage output. -/
def demoOperation : ParsedOperation :=
  { operation_name := "list_buckets", category := .READ, confidence := 1/2 }

/-- Stage functions returning the fixed outputs above. -/
def demoStages : IntentStages :=
  { classifyIntent := fun _ => some demoIntent
    identifyService := fun _ => some demoService
    determineOperation := fun _ _ _ => demoOperation
    extractParameters := fun _ _ _ => [] }

/-- The command `intentClassify demoStages "list buckets"` builds. -/
def demoCommand : StructuredCommand :=
  { service := "s3"
    operation := "list_buckets"
    category := .READ
    raw_input := "list buckets"
    confidence := min demoIntent.confidence (min demoService.confidence demoOperation.confidence) }

/-! ### Helper lemmas -/

/-- A successful association-list lookup exhibits a member with that key. -/
theorem mem_of_lookup_eq_some {α β : Type} [BEq α] [LawfulBEq α] {l : List (α × β)}
    {k : α} {b : β} (h : l.lookup k = some b) : (k, b) ∈ l := by
  rcases List.lookup_eq_some_iff.1 h with ⟨l₁, l₂, rfl, -⟩
  simp

/-- Every branch of the block-reason categoriser returns a non-empty string. -/
theorem blockReasonFor_ne_empty (key : String) : blockReasonFor key ≠ "" := by
  unfold blockReasonFor
  repeat' split
  all_goals decide

/-- On a denylisted key, `get_block_reason` returns the categorised reason. -/
theorem get_block_reason_of_blocked {service operation : String}
    (h : is_operation_blocked service operation = true) :
    get_block_reason service operation = some (blockReasonFor (denyKey service operation)) := by
  unfold is_operation_blocked at h
  unfold get_block_reason
  rw [if_neg (fun hn => hn h)]

/-- C1: for every safety mode and all parameters, an operation whose
lowercased `service.operation` key is in the denylist is denied by
`evaluate` with category BLOCKED and a non-empty reason. -/
theorem denylisted_always_blocked {α : Type} (config : SafetyConfig)
    (service operation : String) (parameters : BulkParams α)
    (h : is_operation_blocked service operation = true) :
    (evaluate config service operation parameters).allowed = false ∧
    (evaluate config service operation parameters).category = OperationCategory.BLOCKED ∧
    (evaluate config service operation parameters).reason ≠ "" := by
  have hr := get_block_reason_of_blocked h
  have hne := blockReasonFor_ne_empty (denyKey service operation)
  unfold evaluate
  rw [if_pos h]
  refine ⟨rfl, rfl, ?_⟩
  show pyOrStr (get_block_reason service operation) (blockedFallbackReason service operation) ≠ ""
  rw [hr]
  simp only [pyOrStr]
  rw [if_neg hne]
  exact hne

/-- C1 witness: `cloudtrail.delete_trail` is denied even in UNRESTRICTED
mode, with category BLOCKED and a non-empty reason. -/
theorem denylisted_always_blocked_witness :
    (evaluate cfgUnrestricted "cloudtrail" "delete_trail" emptyBulk).allowed = false ∧
    (evaluate cfgUnrestricted "cloudtrail" "delete_trail" emptyBulk).category = OperationCategory.BLOCKED ∧
    (evaluate cfgUnrestricted "cloudtrail" "delete_trail" emptyBulk).reason ≠ "" :=
  denylisted_always_blocked cfgUnrestricted "cloudtrail" "delete_trail" emptyBulk (by decide)

/-- C2: in READ_ONLY mode, a non-denylisted operation is allowed by
`evaluate` only if it classifies READ, and every WRITE or DESTRUCTIVE
classification is denied with suggested mode STANDARD. -/
theorem read_only_allows_only_reads {α : Type} (config : SafetyConfig)
    (service operation : String) (parameters : BulkParams α)
    (hmode : config.mode = SafetyMode.READ_ONLY)
    (hnb : is_operation_blocked service operation = false) :
    ((evaluate config service operation parameters).allowed = true →
      OperationClassifier.classify service operation = OperationCategory.READ) ∧
    ((OperationClassifier.classify service operation = OperationCategory.WRITE ∨
      OperationClassifier.classify service operation = OperationCategory.DESTRUCTIVE) →
      (evaluate config service operation parameters).allowed = false ∧
      (evaluate config service operation parameters).suggested_mode = some SafetyMode.STANDARD) := by
  unfold evaluate
  rw [if_neg (show ¬ is_operation_blocked service operation = true by simp [hnb])]
  rw [hmode]
  simp only [getAllowedCategories]
  cases hc : OperationClassifier.classify service operation with
  | READ =>
    rw [if_neg (by decide)]
    constructor
    · intro _
      rfl
    · rintro (h | h) <;> simp at h
  | WRITE =>
    rw [if_pos (by decide)]
    constructor
    · intro habs
      simp at habs
    · intro _
      exact ⟨rfl, rfl⟩
  | DESTRUCTIVE =>
    rw [if_pos (by decide)]
    constructor
    · intro habs
      simp at habs
    · intro _
      exact ⟨rfl, rfl⟩
  | BLOCKED =>
    rw [if_pos (by decide)]
    constructor
    · intro habs
      simp at habs
    · rintro (h | h) <;> simp at h

/-- C2 witness: in READ_ONLY mode, `ec2.terminate_instances` (classified
DESTRUCTIVE) is denied with suggested mode STANDARD. -/
theorem read_only_allows_only_reads_witness :
    (evaluate cfgReadOnly "ec2" "terminate_instances" emptyBulk).allowed = false ∧
    (evaluate cfgReadOnly "ec2" "terminate_instances" emptyBulk).suggested_mode =
      some SafetyMode.STANDARD :=
  (read_only_allows_only_reads cfgReadOnly "ec2" "terminate_instances" emptyBulk rfl
    (by decide)).2 (Or.inr (by decide))

/-- C3: in every mode, a non-denylisted operation whose estimated affected
resource count exceeds the configured ceiling is denied; whenever its
category passes the mode gate, the denial carries the count-citing reason
and the count itself. -/
theorem blast_radius_denies {α : Type} (config : SafetyConfig)
    (service operation : String) (parameters : BulkParams α)
    (hnb : is_operation_blocked service operation = false)
    (hcount : (countAffectedResources parameters : Int) > config.max_resources_per_operation) :
    (evaluate config service operation parameters).allowed = false ∧
    ((getAllowedCategories config.mode).contains
        (OperationClassifier.classify service operation) = true →
      (evaluate config service operation parameters).reason =
        blastRadiusReason (countAffectedResources parameters)
          config.max_resources_per_operation ∧
      (evaluate config service operation parameters).affected_resources =
        countAffectedResources parameters) := by
  unfold evaluate
  rw [if_neg (show ¬ is_operation_blocked service operation = true by simp [hnb])]
  by_cases hcont : (getAllowedCategories config.mode).contains
      (OperationClassifier.classify service operation) = true
  · rw [if_neg (fun hn => hn hcont), if_pos hcount]
    exact ⟨rfl, fun _ => ⟨rfl, rfl⟩⟩
  · rw [if_pos hcont]
    exact ⟨rfl, fun hc => absurd hc hcont⟩

/-- C3 witness: `ec2.terminate_instances` with 100 instance ids and ceiling
50 is denied in UNRESTRICTED mode with the count-citing reason. -/
theorem blast_radius_denies_witness :
    (evaluate cfgUnrestricted "ec2" "terminate_instances" bulk100).allowed = false ∧
    (evaluate cfgUnrestricted "ec2" "terminate_instances" bulk100).reason =
      blastRadiusReason (countAffectedResources bulk100)
        cfgUnrestricted.max_resources_per_operation := by
  have h := blast_radius_denies cfgUnrestricted "ec2" "terminate_instances" bulk100
    (by decide) (by decide)
  exact ⟨h.1, (h.2 (by decide)).1⟩

/-- Each step of the resource-count estimate can only grow the count. -/
theorem le_bulkStep {α : Type} (entry : Option (List α)) (count : Nat) :
    count ≤ bulkStep entry count := by
  cases entry with
  | none => exact Nat.le_refl count
  | some l => exact Nat.le_max_left count l.length

/-- The nested step likewise can only grow the count. -/
theorem le_bulkStepNested {α : Type} (entry : Option (Option (List α))) (count : Nat) :
    count ≤ bulkStepNested entry count := by
  rcases entry with _ | (_ | objs)
  · exact Nat.le_refl count
  · exact Nat.le_refl count
  · exact Nat.le_max_left count objs.length

/-- The resource-count estimate starts at 1 and only grows by `max`. -/
theorem one_le_countAffectedResources {α : Type} (p : BulkParams α) :
    1 ≤ countAffectedResources p := by
  unfold countAffectedResources
  exact Nat.le_trans
    (Nat.le_trans
      (Nat.le_trans
        (Nat.le_trans (le_bulkStep p.instanceIds 1) (le_bulkStep p.resourceIds _))
        (le_bulkStep p.resourceArns _))
      (le_bulkStepNested p.deleteObjects _))
    (le_bulkStep p.functionNames _)

/-- C7 counterexample: the denylist denial for `cloudtrail.delete_trail`
leaves `affected_resources` at its default 0, so it is not ≥ 1 as the claim
states for every decision. -/
theorem affected_resources_zero_counterexample :
    ¬ (1 ≤ (evaluate cfgReadOnly "cloudtrail" "delete_trail" emptyBulk).affected_resources) := by
  decide

/-- C7 amended: allow decisions and blast-radius denials carry
`affected_resources = countAffectedResources ≥ 1`; denylist denials and
safety-mode denials leave `affected_resources` at its default 0. -/
theorem affected_resources_by_branch {α : Type} (config : SafetyConfig)
    (service operation : String) (parameters : BulkParams α) :
    ((evaluate config service operation parameters).allowed = true →
      1 ≤ (evaluate config service operation parameters).affected_resources) ∧
    (is_operation_blocked service operation = true →
      (evaluate config service operation parameters).affected_resources = 0) ∧
    (is_operation_blocked service operation = false →
      (getAllowedCategories config.mode).contains
        (OperationClassifier.classify service operation) = false →
      (evaluate config service operation parameters).affected_resources = 0) ∧
    (is_operation_blocked service operation = false →
      (getAllowedCategories config.mode).contains
        (OperationClassifier.classify service operation) = true →
      (evaluate config service operation parameters).affected_resources =
        countAffectedResources parameters ∧
      1 ≤ countAffectedResources parameters) := by
  unfold evaluate
  by_cases hb : is_operation_blocked service operation = true
  · rw [if_pos hb]
    refine ⟨?_, fun _ => rfl, ?_, ?_⟩
    · intro habs
      simp at habs
    · intro hnb _
      exact absurd hb (by simp [hnb])
    · intro hnb _
      exact absurd hb (by simp [hnb])
  · rw [if_neg hb]
    by_cases hcont : (getAllowedCategories config.mode).contains
        (OperationClassifier.classify service operation) = true
    · rw [if_neg (fun hn => hn hcont)]
      by_cases hbl : (countAffectedResources parameters : Int) > config.max_resources_per_operation
      · rw [if_pos hbl]
        refine ⟨?_, ?_, ?_, ?_⟩
        · intro habs
          simp at habs
        · intro h
          exact absurd h hb
        · intro _ hcf
          rw [hcont] at hcf
          simp at hcf
        · exact fun _ _ => ⟨rfl, one_le_countAffectedResources parameters⟩
      · rw [if_neg hbl]
        refine ⟨?_, ?_, ?_, ?_⟩
        · intro _
          exact one_le_countAffectedResources parameters
        · intro h
          exact absurd h hb
        · intro _ hcf
          rw [hcont] at hcf
          simp at hcf
        · exact fun _ _ => ⟨rfl, one_le_countAffectedResources parameters⟩
    · rw [if_pos hcont]
      refine ⟨?_, ?_, ?_, ?_⟩
      · intro habs
        simp at habs
      · intro h
        exact absurd h hb
      · exact fun _ _ => rfl
      · intro _ hct
        exact absurd hct hcont

/-- C7 witness: a blast-radius denial (100 instance ids, ceiling 50, mode
UNRESTRICTED) carries the computed count, which is at least 1. -/
theorem affected_resources_by_branch_witness :
    (evaluate cfgUnrestricted "ec2" "terminate_instances" bulk100).affected_resources =
      countAffectedResources bulk100 ∧
    1 ≤ countAffectedResources bulk100 :=
  (affected_resources_by_branch cfgUnrestricted "ec2" "terminate_instances" bulk100).2.2.2
    (by decide) (by decide)

/-- Every override-table entry whose operation name starts with a
DESTRUCTIVE prefix maps to DESTRUCTIVE. -/
theorem overrides_destructive_entries :
    ∀ e ∈ OperationClassifier.OPERATION_OVERRIDES,
      OperationClassifier.DESTRUCTIVE_PREFIXES.any (fun p => pyStartsWith e.1.2 p) = true →
      e.2 = OperationCategory.DESTRUCTIVE := by
  decide

/-- C4: whenever the lowercased operation name starts with one of the
DESTRUCTIVE prefixes, `classify` returns neither READ nor WRITE — the
override table, consulted first, never downgrades such a name. -/
theorem destructive_prefix_never_read_write (service operation : String)
    (h : OperationClassifier.DESTRUCTIVE_PREFIXES.any
        (fun p => pyStartsWith (pyLower operation) p) = true) :
    OperationClassifier.classify service operation ≠ OperationCategory.READ ∧
    OperationClassifier.classify service operation ≠ OperationCategory.WRITE := by
  unfold OperationClassifier.classify
  cases hl : OperationClassifier.OPERATION_OVERRIDES.lookup
      (pyLower service, pyLower operation) with
  | some cat =>
    have hm := mem_of_lookup_eq_some hl
    have hd : cat = OperationCategory.DESTRUCTIVE :=
      overrides_destructive_entries ((pyLower service, pyLower operation), cat) hm h
    simp only [hl, hd]
    exact ⟨by simp, by simp⟩
  | none =>
    simp only [hl]
    rw [if_pos h]
    exact ⟨by simp, by simp⟩

/-- C4 witness: `ec2.terminate_instances`, which is present in the override
table and starts with the destructive prefix `terminate`, classifies neither
READ nor WRITE. -/
theorem destructive_prefix_never_read_write_witness :
    OperationClassifier.classify "ec2" "terminate_instances" ≠ OperationCategory.READ ∧
    OperationClassifier.classify "ec2" "terminate_instances" ≠ OperationCategory.WRITE :=
  destructive_prefix_never_read_write "ec2" "terminate_instances" (by decide)

/-- C9: whenever `intentClassify` succeeds, the command's confidence is the
minimum of the intent-stage, service-stage and operation-stage confidences. -/
theorem command_confidence_is_min (st : IntentStages) (query : String)
    (command : StructuredCommand) (intent : ParsedIntent) (service : ParsedService)
    (operation : ParsedOperation) (parameters : List ParsedParameter)
    (h : intentClassify st query =
      ParseResult.ok command intent service operation parameters) :
    command.confidence =
      min intent.confidence (min service.confidence operation.confidence) := by
  simp only [intentClassify] at h
  split at h
  · exact absurd h (by simp)
  · split at h
    · exact absurd h (by simp)
    · split at h
      · exact absurd h (by simp)
      · injection h with h1 h2 h3 h4 h5
        subst h1
        subst h2
        subst h3
        subst h4
        rfl

/-- C9 witness: with fixed stage confidences 9/10, 7/10 and 1/2, the parsed
command's confidence is their minimum. -/
theorem command_confidence_is_min_witness :
    demoCommand.confidence =
      min demoIntent.confidence (min demoService.confidence demoOperation.confidence) :=
  command_confidence_is_min demoStages "list buckets" demoCommand demoIntent demoService
    demoOperation [] (by rfl)

/-- C8: every `ExecutionResult` built by `execute_command` keeps the success
and error field groups exclusive: `success = true` forces `error` and
`error_code` to be `None`, `success = false` forces `data` to be `None`, and
`data` and `error` are never both populated. -/
theorem execution_result_exclusive (reg : ServiceModelRegistry) (config : SafetyConfig)
    (command : StructuredCommand) (confirm : Bool) (attempt : ExecAttempt)
    (activeRegion : Option String) (operationSuggestionsFor : String → List String)
    (formatTable : List PyVal → Option String) :
    ((executeCommand reg config command confirm attempt activeRegion
        operationSuggestionsFor formatTable).success = true →
      (executeCommand reg config command confirm attempt activeRegion
        operationSuggestionsFor formatTable).error = none ∧
      (executeCommand reg config command confirm attempt activeRegion
        operationSuggestionsFor formatTable).error_code = none) ∧
    ((executeCommand reg config command confirm attempt activeRegion
        operationSuggestionsFor formatTable).success = false →
      (executeCommand reg config command confirm attempt activeRegion
        operationSuggestionsFor formatTable).data = none) ∧
    ¬ ((executeCommand reg config command confirm attempt activeRegion
        operationSuggestionsFor formatTable).data ≠ none ∧
       (executeCommand reg config command confirm attempt activeRegion
        operationSuggestionsFor formatTable).error ≠ none) := by
  simp only [executeCommand]
  repeat' split
  all_goals refine ⟨?_, ?_, ?_⟩
  all_goals first
    | (intro habs; exact Bool.noConfusion habs)
    | (intro _; exact ⟨rfl, rfl⟩)
    | (intro _; rfl)
    | (intro hc; exact hc.1 rfl)
    | (intro hc; exact hc.2 rfl)

/-- C8 witness: a successful `s3.list_buckets` execution carries no error
fields. -/
theorem execution_result_exclusive_witness :
    (executeCommand sampleRegistry cfgReadOnly cmdListBuckets false
      (ExecAttempt.ok (PyVal.vlist []) false) none (fun _ => []) (fun _ => none)).error = none ∧
    (executeCommand sampleRegistry cfgReadOnly cmdListBuckets false
      (ExecAttempt.ok (PyVal.vlist []) false) none (fun _ => []) (fun _ => none)).error_code = none :=
  (execution_result_exclusive sampleRegistry cfgReadOnly cmdListBuckets false
    (ExecAttempt.ok (PyVal.vlist []) false) none (fun _ => []) (fun _ => none)).1 (by rfl)

/-- C6 counterexample: on the sample registry, `s3.get_object` with both
required parameters present but `Key` bound to an integer yields
`valid = false` (a type mismatch is an error), with nothing in
`missing_required` — refuting the claim that a type mismatch alone never
invalidates. -/
theorem type_mismatch_invalidates_counterexample :
    (validateOperation sampleRegistry "s3" "get_object" mismatchParams).valid = false ∧
    (validateOperation sampleRegistry "s3" "get_object" mismatchParams).missing_required = [] :=
  ⟨rfl, rfl⟩

/-- C6 amended: for a known service and operation, a provided parameter with
a truthy declared type that its value fails to match is reported as an
error and makes `ValidationResult.valid = false` (missing required
parameters are not the only cause of invalidity). -/
theorem type_mismatch_makes_invalid (reg : ServiceModelRegistry)
    (service operation : String) (parameters : List (String × PyVal))
    (k : String) (v : PyVal) (t : String)
    (hs : reg.serviceExists service = true)
    (ho : reg.operationExists service operation = true)
    (hmem : (k, v) ∈ parameters)
    (ht : reg.getParameterType service operation k = some t)
    (hne : t ≠ "") (hmis : typeMatches v t = false) :
    (validateOperation reg service operation parameters).valid = false := by
  have hf : typeErrorFor reg service operation (k, v) = some (typeMismatchMsg k t v) := by
    unfold typeErrorFor
    simp only [ht]
    rw [if_pos ⟨hne, hmis⟩]
  have htne : parameters.filterMap (typeErrorFor reg service operation) ≠ [] := by
    intro hnil
    rw [List.filterMap_eq_nil_iff] at hnil
    exact Option.noConfusion (hf.symm.trans (hnil (k, v) hmem))
  simp only [validateOperation]
  rw [if_neg (fun hn => hn hs), if_neg (fun hn => hn ho)]
  repeat' split
  all_goals first
    | rfl
    | simp_all

/-- C6 amended witness: the concrete mismatch (`Key` declared `string`,
provided an `int`) makes validation fail on the sample registry. -/
theorem type_mismatch_makes_invalid_witness :
    (validateOperation sampleRegistry "s3" "get_object" mismatchParams).valid = false :=
  type_mismatch_makes_invalid sampleRegistry "s3" "get_object" mismatchParams
    "Key" (PyVal.vint 7) "string" (by rfl) (by rfl)
    (List.mem_cons_of_mem _ (List.mem_cons_self _ _)) (by rfl) (by decide) (by rfl)

/-- Unfolding `totalExtracted` over a cons of pages. -/
theorem totalExtracted_cons (page : Response) (rest : List Response) (rk : Option String) :
    totalExtracted (page :: rest) rk =
      (extractResults page rk).length + totalExtracted rest rk := by
  simp [totalExtracted]

/-- Unfolding `joinExtracted` over a cons of pages. -/
theorem joinExtracted_cons (page : Response) (rest : List Response) (rk : Option String) :
    joinExtracted (page :: rest) rk =
      extractResults page rk ++ joinExtracted rest rk := by
  simp [joinExtracted]

/-- Taking at most the length of the left part of an append ignores the
right part. -/
theorem take_append_left_of_le {α : Type} {n : Nat} {l₁ : List α} (l₂ : List α)
    (h : n ≤ l₁.length) : (l₁ ++ l₂).take n = l₁.take n := by
  rw [List.take_append_eq_append_take, Nat.sub_eq_zero_of_le h]
  simp

/-- When the accumulated items plus the remaining pages reach the item
ceiling (and the page ceiling cannot fire first), the `_paginate` loop
breaks with exactly the first `maxItems` accumulated items. -/
theorem paginateLoop_breaks (maxPages maxItems : Nat) (rk : Option String) :
    ∀ (pages : List Response) (n ic : Nat) (acc : List PyVal),
      ic = acc.length →
      n + pages.length ≤ maxPages →
      acc.length < maxItems →
      maxItems ≤ acc.length + totalExtracted pages rk →
      paginateLoop maxPages maxItems rk pages n ic acc =
        LoopOutcome.broke ((acc ++ joinExtracted pages rk).take maxItems) := by
  intro pages
  induction pages with
  | nil =>
    intro n ic acc h1 h2 h3 h4
    exfalso
    simp [totalExtracted] at h4
    omega
  | cons page rest ih =>
    intro n ic acc h1 h2 h3 h4
    simp only [List.length_cons] at h2
    rw [totalExtracted_cons] at h4
    simp only [paginateLoop]
    rw [if_neg (show ¬ n ≥ maxPages by omega)]
    by_cases hb : ic + (extractResults page rk).length ≥ maxItems
    · rw [if_pos hb]
      have hlen : maxItems ≤ (acc ++ extractResults page rk).length := by
        rw [List.length_append]
        omega
      congr 1
      rw [joinExtracted_cons, ← List.append_assoc]
      exact (take_append_left_of_le (joinExtracted rest rk) hlen).symm
    · rw [if_neg hb]
      have hrec := ih (n + 1) (ic + (extractResults page rk).length)
        (acc ++ extractResults page rk)
        (by rw [List.length_append, h1])
        (by omega)
        (by rw [List.length_append]; omega)
        (by rw [List.length_append]; omega)
      rw [hrec]
      congr 1
      rw [joinExtracted_cons, ← List.append_assoc]

/-- C5 counterexample: with item ceiling `M = 0`, a paginator yielding no
pages satisfies the claim's hypotheses (page ceiling at least the page
count, pages cumulatively yield at least `M` items) yet `execute_paginated`
returns `truncated = false`, not `true`. -/
theorem pagination_zero_ceiling_counterexample :
    clientEmptyPager.paginator = some ([], false) ∧
    ([] : List Response).length ≤ 0 ∧
    0 ≤ totalExtracted ([] : List Response) none ∧
    (executePaginated clientEmptyPager 0 0 none).2 = false :=
  ⟨rfl, Nat.le_refl 0, Nat.zero_le _, rfl⟩

/-- C5 amended: with item ceiling `M ≥ 1` and a page ceiling of at least the
number of pages, whenever the pages cumulatively yield at least `M` items,
`execute_paginated` returns exactly the first `M` accumulated items with
`truncated = true`. -/
theorem executePaginated_truncates_at_max_items (client : PageClient)
    (pages : List Response) (raises : Bool) (rk : Option String)
    (maxPages maxItems : Nat)
    (hp : client.paginator = some (pages, raises))
    (hpages : pages.length ≤ maxPages)
    (hM : 1 ≤ maxItems)
    (htotal : maxItems ≤ totalExtracted pages rk) :
    executePaginated client maxPages maxItems rk =
      ((joinExtracted pages rk).take maxItems, true) := by
  simp only [executePaginated, hp]
  rw [paginateLoop_breaks maxPages maxItems rk pages 0 0 [] rfl
    (by simpa using hpages) (by simpa using hM) (by simpa using htotal)]
  simp

/-- C5 amended witness: three pages of 40 items each against an item ceiling
of 100 (and page ceiling 100) yield exactly the first 100 items,
truncated. -/
theorem executePaginated_truncates_witness :
    executePaginated clientPaged 100 100 none =
      ((joinExtracted threePages40 none).take 100, true) ∧
    ((joinExtracted threePages40 none).take 100).length = 100 :=
  ⟨executePaginated_truncates_at_max_items clientPaged threePages40 false none 100 100 rfl
      (by decide) (by decide) (by decide),
   by decide⟩

/-- C10: when the operation has no paginator (`get_paginator` raises) or the
paginator raises at a point the loop actually reaches, `execute_paginated`
falls back to the direct client call and returns everything extracted from
that single response with `truncated = false`; the ceilings are not applied
there, so the result can exceed `max_items` (concretely, 3 items against a
ceiling of 1). -/
theorem executePaginated_fallback (client : PageClient) (maxPages maxItems : Nat)
    (rk : Option String) :
    (client.paginator = none →
      executePaginated client maxPages maxItems rk =
        (extractResults client.response rk, false)) ∧
    (∀ (pages : List Response) (res : List PyVal),
      client.paginator = some (pages, true) →
      paginateLoop maxPages maxItems rk pages 0 0 [] = LoopOutcome.completed res →
      executePaginated client maxPages maxItems rk =
        (extractResults client.response rk, false)) ∧
    ((executePaginated clientNoPager 100 1 none).1.length = 3 ∧ 1 < 3) := by
  refine ⟨?_, ?_, ?_⟩
  · intro hp
    simp only [executePaginated, hp]
    rfl
  · intro pages res hp hloop
    simp only [executePaginated, hp]
    rw [hloop]
    simp [singleCall]
  · exact ⟨by decide, by decide⟩

/-- C10 witness: a client without a paginator, and a client whose paginator
raises after its only page, both fall back to the single direct call. -/
theorem executePaginated_fallback_witness :
    executePaginated clientNoPager 100 1 none =
      (extractResults clientNoPager.response none, false) ∧
    executePaginated clientRaises 100 100 none =
      (extractResults clientRaises.response none, false) :=
  ⟨(executePaginated_fallback clientNoPager 100 1 none).1 rfl,
   (executePaginated_fallback clientRaises 100 100 none).2.1 [pageOf 2]
     (extractResults (pageOf 2) none) rfl (by rfl)⟩
